import Mathlib

/-!
# A verification model of the gufo_acme ACME client core

This file gives a shallow embedding, in Lean 4, of the protocol engine of
the `gufo.acme.client.ACMEClient` Python class: the response classifier,
the replay-nonce pool, the signed-POST request engine with its single
retry on bad nonce, the account lifecycle (bind/unbind), order creation,
and authorization polling.  Network interaction is modelled by an oracle:
a list of planned HTTP responses consumed in order, together with a trace
of the requests issued.  Machine-level details that the modelled claims
never exercise (TLS, real JOSE signing, SHA-256 internals) are abstracted
as opaque byte-string parameters.

Numeric time (sleeps and deadlines) is modelled over `ℚ`; the Python code
uses floats, but all constants involved (1.5, 3.0, 60.0) and the claims
about them are exact.
-/

/-- Bytes are modelled as lists of naturals below 256. -/
abbrev Bytes := List Nat

/-- A minimal JSON value model, sufficient for the bodies the client
parses: problem documents, directory documents, order documents and
authorization poll results. -/
inductive Json where
  | jnull : Json
  | jbool : Bool → Json
  | jstr : String → Json
  | jarr : List Json → Json
  | jobj : List (String × Json) → Json

/-- Field lookup in a JSON object; `none` when the key is absent or the
value is not an object (the Python code only ever calls `.get` /
item-access on decoded objects). -/
def Json.get (j : Json) (k : String) : Option Json :=
  match j with
  | .jobj fields =>
    match fields.find? (fun p => p.1 == k) with
    | some p => some p.2
    | none => none
  | _ => none

/-- Python `str()` rendering of a JSON value, used only to build the
generic error message `f"[{status}] {e_type} {e_detail}"`.  Composite
values (arrays/objects) are not rendered faithfully; no modelled claim
exercises them in that position. -/
def Json.pyStr : Json → String
  | .jnull => "None"
  | .jbool true => "True"
  | .jbool false => "False"
  | .jstr s => s
  | .jarr _ => "<list>"
  | .jobj _ => "<dict>"

/-- The exceptions the modelled code paths can raise.  The first block
mirrors `gufo.acme.error`; the `py*` constructors are bare Python
exceptions (`KeyError`, `ValueError`) that are not ACME error kinds.
`externalAccountRequired` is the error kind the specification's taxonomy
lists for the EAB-required condition; it is included so that theorems can
state whether the classifier ever produces it. -/
inductive AcmeExc where
  | undecodableError : AcmeExc
  | badNonceError : AcmeExc
  | rateLimitError : AcmeExc
  | unauthorizedError : AcmeExc
  | acmeError : String → AcmeExc
  | alreadyRegistered : AcmeExc
  | notRegistredError : AcmeExc
  | authorizationError : String → AcmeExc
  | certificateError : String → AcmeExc
  | timeoutError : AcmeExc
  | connectError : AcmeExc
  | fulfillmentFailed : AcmeExc
  | externalAccountRequired : AcmeExc
  | pyKeyError : AcmeExc
  | pyValueError : AcmeExc
  deriving DecidableEq

/-- Whether an exception belongs to the ACME error taxonomy (i.e. is an
`ACMEError` subclass in the source); the bare Python exceptions are not. -/
def AcmeExc.isAcmeError : AcmeExc → Bool
  | .pyKeyError => false
  | .pyValueError => false
  | _ => true

/-! ## Base64url (josepy `decode_b64jose` / `encode_b64jose`)

`josepy.json_util.decode_b64jose` pads its input to a multiple of four
characters and decodes with the URL-safe alphabet, raising
`DeserializationError` on malformed input; `encode_b64jose` encodes with
the URL-safe alphabet and strips the padding. -/

/-- Value of one base64url alphabet character; `none` for characters
outside the URL-safe alphabet. -/
def b64urlCharVal (c : Char) : Option Nat :=
  if 'A' ≤ c ∧ c ≤ 'Z' then some (c.toNat - 65)
  else if 'a' ≤ c ∧ c ≤ 'z' then some (c.toNat - 97 + 26)
  else if '0' ≤ c ∧ c ≤ '9' then some (c.toNat - 48 + 52)
  else if c = '-' then some 62
  else if c = '_' then some 63
  else none

/-- Decode a list of 6-bit values into bytes; groups of four values give
three bytes, a trailing group of two or three values gives one or two
bytes, and a trailing single value is malformed. -/
def b64urlDecodeVals : List Nat → Option Bytes
  | [] => some []
  | [_] => none
  | [a, b] => some [a * 4 + b / 16]
  | [a, b, c] => some [a * 4 + b / 16, b % 16 * 16 + c / 4]
  | a :: b :: c :: d :: rest =>
    match b64urlDecodeVals rest with
    | none => none
    | some tail =>
      some ((a * 4 + b / 16) :: (b % 16 * 16 + c / 4) :: (c % 4 * 64 + d) :: tail)

/-- `josepy.json_util.decode_b64jose`: unpadded base64url decoding;
`none` models `DeserializationError`. -/
def decode_b64jose (s : String) : Option Bytes :=
  match s.data.mapM b64urlCharVal with
  | none => none
  | some vals => b64urlDecodeVals vals

/-- Character of one 6-bit value in the URL-safe alphabet. -/
def b64urlValChar (n : Nat) : Char :=
  if n < 26 then Char.ofNat (65 + n)
  else if n < 52 then Char.ofNat (97 + n - 26)
  else if n < 62 then Char.ofNat (48 + n - 52)
  else if n = 62 then '-'
  else '_'

/-- Encode bytes in unpadded base64url: three bytes give four characters,
trailing one or two bytes give two or three characters. -/
def b64urlEncodeBytes : Bytes → List Char
  | [] => []
  | [a] => [b64urlValChar (a / 4), b64urlValChar (a % 4 * 16)]
  | [a, b] =>
    [b64urlValChar (a / 4), b64urlValChar (a % 4 * 16 + b / 16),
     b64urlValChar (b % 16 * 4)]
  | a :: b :: c :: rest =>
    b64urlValChar (a / 4) :: b64urlValChar (a % 4 * 16 + b / 16) ::
      b64urlValChar (b % 16 * 4 + c / 64) :: b64urlValChar (c % 64) ::
      b64urlEncodeBytes rest

/-- `josepy.json_util.encode_b64jose`: unpadded base64url encoding. -/
def encode_b64jose (bs : Bytes) : String :=
  String.mk (b64urlEncodeBytes bs)

/-- UTF-8 encoding of one character (Python `str.encode()`). -/
def charUtf8 (c : Char) : Bytes :=
  let n := c.toNat
  if n < 128 then [n]
  else if n < 2048 then [192 + n / 64, 128 + n % 64]
  else if n < 65536 then [224 + n / 4096, 128 + n / 64 % 64, 128 + n % 64]
  else [240 + n / 262144, 128 + n / 4096 % 64, 128 + n / 64 % 64,
        128 + n % 64]

/-- UTF-8 encoding of a string (Python `str.encode()`). -/
def utf8Bytes (s : String) : Bytes :=
  s.data.flatMap charUtf8

/-! ## HTTP responses and the response classifier -/

/-- The parts of an `httpx.Response` the client reads: the status code,
the JSON decoding of the body (`none` when `resp.json()` raises
`ValueError`), and the two headers it consumes. -/
structure HttpResponse where
  statusCode : Nat
  jbody : Option Json
  replayNonce : Option String
  location : Option String

/-- `BAD_REQUEST` constant from the source. -/
def BAD_REQUEST : Nat := 400

/-- `ACMEClient._check_response`: status below 400 is success; otherwise
the body must decode as a JSON problem document and its `type` field is
mapped to an error kind, with a generic `ACMEError` carrying
`[status] type detail` for unrecognized types. -/
def check_response (resp : HttpResponse) : Except AcmeExc Unit :=
  if resp.statusCode < BAD_REQUEST then .ok ()
  else
    match resp.jbody with
    | none => .error .undecodableError
    | some jdata =>
      let e_type := (jdata.get "type").getD (.jstr "")
      match e_type with
      | .jstr s =>
        if s = "urn:ietf:params:acme:error:badNonce" then
          .error .badNonceError
        else if s = "urn:ietf:params:acme:error:rateLimited" then
          .error .rateLimitError
        else if s = "urn:ietf:params:acme:error:unauthorized" then
          .error .unauthorizedError
        else
          let e_detail := ((jdata.get "detail").getD (.jstr "")).pyStr
          .error (.acmeError
            ("[" ++ toString resp.statusCode ++ "] " ++ s ++ " " ++ e_detail))
      | other =>
        let e_detail := ((jdata.get "detail").getD (.jstr "")).pyStr
        .error (.acmeError
          ("[" ++ toString resp.statusCode ++ "] " ++ other.pyStr ++ " " ++
            e_detail))

/-! ## Client state and the nonce pool -/

/-- Directory document (`gufo.acme.types.ACMEDirectory`): `new_nonce` is
optional, the other two endpoints are required. -/
structure ACMEDirectory where
  new_account : String
  new_nonce : Option String
  new_order : String
  deriving DecidableEq

/-- The mutable state of an `ACMEClient` relevant to the modelled claims:
the directory URL, the cached directory, the bound account URL and the
nonce pool.  The Python pool is a `set`; it is modelled as a duplicate
free list whose head is the element `set.pop()` removes. -/
structure ClientSt where
  directory_url : String
  directory : Option ACMEDirectory
  account_url : Option String
  nonces : List Bytes
  deriving DecidableEq

/-- `ACMEClient.__init__`: fresh client with an empty nonce pool, no
cached directory, and an optional pre-bound account URL. -/
def clientInit (directory_url : String) (account_url : Option String) :
    ClientSt :=
  { directory_url := directory_url
    directory := none
    account_url := account_url
    nonces := [] }

/-- `ACMEClient.is_bound`. -/
def is_bound (st : ClientSt) : Bool :=
  st.account_url.isSome

/-- `ACMEClient._check_bound`: raises `ACMENotRegistredError` when the
client is not bound. -/
def check_bound (st : ClientSt) : Except AcmeExc Unit :=
  if is_bound st then .ok () else .error .notRegistredError

/-- `ACMEClient._check_unbound`: raises `ACMEAlreadyRegistered` when the
client is bound. -/
def check_unbound (st : ClientSt) : Except AcmeExc Unit :=
  if is_bound st then .error .alreadyRegistered else .ok ()

/-- `ACMEClient._nonce_from_response`: when a `Replay-Nonce` header is
present, base64url-decode it (malformed value: `ACMEBadNonceError`) and
insert it into the pool (duplicate: `ACMEError("Duplicated nonce")`). -/
def nonce_from_response (st : ClientSt) (resp : HttpResponse) :
    Except AcmeExc ClientSt :=
  match resp.replayNonce with
  | none => .ok st
  | some nonce =>
    match decode_b64jose nonce with
    | none => .error .badNonceError
    | some b_nonce =>
      if b_nonce ∈ st.nonces then .error (.acmeError "Duplicated nonce")
      else .ok { st with nonces := st.nonces ++ [b_nonce] }

/-! ## The network oracle

Network interaction is modelled by an oracle: a list of planned HTTP
responses which the client consumes in order, one per issued request.
An exhausted plan is modelled as a transport failure
(`ACMEConnectError`).  Every issued request is appended to a trace, so
that theorems can speak about which requests an operation sends. -/

/-- A network request issued by the client. -/
inductive NetReq where
  | get : String → NetReq
  | head : String → NetReq
  | post : String → NetReq
  deriving DecidableEq

/-- An execution environment: the client state, the remaining planned
responses, and the trace of issued requests. -/
structure Env where
  st : ClientSt
  net : List HttpResponse
  trace : List NetReq

/-- Issue one network request against the oracle. -/
def netSend (req : NetReq) (e : Env) : Except AcmeExc HttpResponse × Env :=
  match e.net with
  | [] => (.error .connectError, { e with trace := e.trace ++ [req] })
  | r :: rest => (.ok r, { e with net := rest, trace := e.trace ++ [req] })

/-- Parse the directory document: `newAccount` and `newOrder` are
mandatory (`data["…"]`, a missing key is a Python `KeyError`),
`newNonce` is optional (`data.get("newNonce")`). -/
def parse_directory (jbody : Option Json) : Except AcmeExc ACMEDirectory :=
  match jbody with
  | none => .error .pyValueError
  | some data =>
    match data.get "newAccount", data.get "newOrder" with
    | some (.jstr na), some (.jstr no) =>
      .ok { new_account := na
            new_nonce :=
              match data.get "newNonce" with
              | some (.jstr nn) => some nn
              | _ => none
            new_order := no }
    | _, _ => .error .pyKeyError

namespace ACMEClient

/-- `ACMEClient._get_directory`: return the cached directory, or fetch it
with a GET against the directory URL, classify the response, parse the
document and cache it. -/
def get_directory (e : Env) : Except AcmeExc ACMEDirectory × Env :=
  match e.st.directory with
  | some d => (.ok d, e)
  | none =>
    match netSend (.get e.st.directory_url) e with
    | (.error ex, e1) => (.error ex, e1)
    | (.ok r, e1) =>
      match check_response r with
      | .error ex => (.error ex, e1)
      | .ok _ =>
        match parse_directory r.jbody with
        | .error ex => (.error ex, e1)
        | .ok d =>
          (.ok d, { e1 with st := { e1.st with directory := some d } })

/-- `ACMEClient._head`: HEAD request, response classification, nonce
harvesting. -/
def head (url : String) (e : Env) : Except AcmeExc HttpResponse × Env :=
  match netSend (.head url) e with
  | (.error ex, e1) => (.error ex, e1)
  | (.ok r, e1) =>
    match check_response r with
    | .error ex => (.error ex, e1)
    | .ok _ =>
      match nonce_from_response e1.st r with
      | .error ex => (.error ex, e1)
      | .ok st2 => (.ok r, { e1 with st := st2 })

/-- `ACMEClient._get_nonce`: when the pool is empty, refill it with a
HEAD against `directory.newNonce` (falling back to the target URL when
the directory has no `newNonce`), then `self.nonces.pop()` — which, on a
still-empty pool, is a bare Python `KeyError`.  The pool is a `set`;
`pop()` is modelled as removing the head of the list. -/
def get_nonce (url : String) (e : Env) : Except AcmeExc Bytes × Env :=
  match e.st.nonces with
  | n :: rest => (.ok n, { e with st := { e.st with nonces := rest } })
  | [] =>
    match get_directory e with
    | (.error ex, e1) => (.error ex, e1)
    | (.ok d, e1) =>
      match head (match d.new_nonce with | none => url | some u => u) e1 with
      | (.error ex, e2) => (.error ex, e2)
      | (.ok resp, e2) =>
        match check_response resp with
        | .error ex => (.error ex, e2)
        | .ok _ =>
          match e2.st.nonces with
          | [] => (.error .pyKeyError, e2)
          | n :: rest =>
            (.ok n, { e2 with st := { e2.st with nonces := rest } })

/-- The outcome of one `_post_once` attempt: the result, the environment
it leaves behind, and the nonce the attempt consumed (`none` when nonce
acquisition itself failed). -/
structure OnceOut where
  result : Except AcmeExc HttpResponse
  env : Env
  nonceUsed : Option Bytes

/-- `ACMEClient._post_once`: acquire a nonce, sign the payload into a
JWS bound to the nonce and the URL (the signature itself is irrelevant
to the modelled claims), POST it, classify the response, and harvest the
response nonce.  Note the classification happens before harvesting, so
an error response's nonce is not harvested. -/
def post_once (url : String) (data : Option Json) (e : Env) : OnceOut :=
  match get_nonce url e with
  | (.error ex, e1) => ⟨.error ex, e1, none⟩
  | (.ok nonce, e1) =>
    match netSend (.post url) e1 with
    | (.error ex, e2) => ⟨.error ex, e2, some nonce⟩
    | (.ok resp, e2) =>
      match check_response resp with
      | .error ex => ⟨.error ex, e2, some nonce⟩
      | .ok _ =>
        match nonce_from_response e2.st resp with
        | .error ex => ⟨.error ex, e2, some nonce⟩
        | .ok st2 => ⟨.ok resp, { e2 with st := st2 }, some nonce⟩

/-- `ACMEClient._post`: one `_post_once` attempt; a single retry when —
and only when — that attempt raised `ACMEBadNonceError`. -/
def post (url : String) (data : Option Json) (e : Env) : OnceOut :=
  let a1 := post_once url data e
  match a1.result with
  | .error .badNonceError => post_once url data a1.env
  | _ => a1

/-- The list of `_post_once` attempts a `_post` call performs. -/
def post_attempts (url : String) (data : Option Json) (e : Env) :
    List OnceOut :=
  let a1 := post_once url data e
  match a1.result with
  | .error .badNonceError => [a1, post_once url data a1.env]
  | _ => [a1]

end ACMEClient

/-- `ACMEClient._email_to_contacts` for an iterable of emails. -/
def email_to_contacts (emails : List String) : List String :=
  emails.map (fun m => "mailto:" ++ m)

/-- RFC-8555 order identifier (`{"type": "dns", "value": domain}`). -/
structure ACMEIdentifier where
  type : String
  value : String
  deriving DecidableEq

/-- `ACMEClient._domain_to_identifiers` for an iterable of domains (a
single domain `d` is the `[d]` case). -/
def domain_to_identifiers (domains : List String) : List ACMEIdentifier :=
  domains.map (fun d => { type := "dns", value := d })

/-- `gufo.acme.types.ACMEAuthorization`. -/
structure ACMEAuthorization where
  domain : String
  url : String
  deriving DecidableEq

/-- `gufo.acme.types.ACMEOrder`. -/
structure ACMEOrder where
  authorizations : List ACMEAuthorization
  finalize : String
  deriving DecidableEq

/-- `gufo.acme.types.ACMEChallenge`. -/
structure ACMEChallenge where
  type : String
  url : String
  token : String
  deriving DecidableEq

namespace ACMEClient

/-- `ACMEClient.new_account` (bind-state skeleton): build contacts, check
the client is unbound (an `ACMEAlreadyRegistered` error raised before
any network request), fetch the directory, POST the registration, and on
success store the response's `Location` header as the account URL
(`resp.headers["Location"]`: a missing header is a Python `KeyError`). -/
def new_account (emails : List String) (e : Env) :
    Except AcmeExc String × Env :=
  let contacts := email_to_contacts emails
  match check_unbound e.st with
  | .error ex => (.error ex, e)
  | .ok _ =>
    match get_directory e with
    | (.error ex, e1) => (.error ex, e1)
    | (.ok d, e1) =>
      let a := post d.new_account
        (some (.jobj [("termsOfServiceAgreed", .jbool true),
                      ("contact", .jarr (contacts.map .jstr))])) e1
      match a.result with
      | .error ex => (.error ex, a.env)
      | .ok resp =>
        match resp.location with
        | none => (.error .pyKeyError, a.env)
        | some loc =>
          (.ok loc,
           { a.env with st := { a.env.st with account_url := some loc } })

/-- `ACMEClient.deactivate_account`: check the client is bound (an
`ACMENotRegistredError` raised before any network request), POST the
deactivation to the account URL, and on success clear the account URL. -/
def deactivate_account (e : Env) : Except AcmeExc Unit × Env :=
  match check_bound e.st with
  | .error ex => (.error ex, e)
  | .ok _ =>
    let a := post (e.st.account_url.getD "")
      (some (.jobj [("status", .jstr "deactivated")])) e
    match a.result with
    | .error ex => (.error ex, a.env)
    | .ok _ =>
      (.ok (), { a.env with st := { a.env.st with account_url := none } })

end ACMEClient

/-- Extract a list of strings from JSON array elements; `none` when an
element is not a string (the modelled `authorizations[]` arrays carry
URL strings). -/
def jStrList : List Json → Option (List String)
  | [] => some []
  | .jstr s :: rest =>
    match jStrList rest with
    | some tail => some (s :: tail)
    | none => none
  | _ => none

/-- Parse the body of a `newOrder` response: `data["authorizations"]`
and `data["finalize"]` (a missing key is a Python `KeyError`). -/
def parse_order_body (jbody : Option Json) :
    Except AcmeExc (List String × String) :=
  match jbody with
  | none => .error .pyValueError
  | some data =>
    match data.get "authorizations", data.get "finalize" with
    | some (.jarr xs), some (.jstr fin) =>
      match jStrList xs with
      | some urls => .ok (urls, fin)
      | none => .error .pyValueError
    | _, _ => .error .pyKeyError

/-- The `ACMEOrder` value `new_order` builds from the requested
identifiers and the server's `authorizations[]` array:
`zip(identifiers, data["authorizations"])` mapped to authorizations. -/
def order_from (identifiers : List ACMEIdentifier) (auths : List String)
    (fin : String) : ACMEOrder :=
  { authorizations :=
      (identifiers.zip auths).map (fun p => { domain := p.1.value, url := p.2 })
    finalize := fin }

namespace ACMEClient

/-- `ACMEClient.new_order`: expand identifiers, check the client is
bound (an `ACMENotRegistredError` raised before any network request),
fetch the directory, POST the identifiers, and pair the requested
identifiers with the response's `authorizations[]` by position. -/
def new_order (domains : List String) (e : Env) :
    Except AcmeExc ACMEOrder × Env :=
  let identifiers := domain_to_identifiers domains
  match check_bound e.st with
  | .error ex => (.error ex, e)
  | .ok _ =>
    match get_directory e with
    | (.error ex, e1) => (.error ex, e1)
    | (.ok d, e1) =>
      let a := post d.new_order
        (some (.jobj [("identifiers",
          .jarr (identifiers.map (fun i =>
            .jobj [("type", .jstr i.type), ("value", .jstr i.value)])))])) e1
      match a.result with
      | .error ex => (.error ex, a.env)
      | .ok resp =>
        match parse_order_body resp.jbody with
        | .error ex => (.error ex, a.env)
        | .ok (auths, fin) => (.ok (order_from identifiers auths fin), a.env)

end ACMEClient

/-! ## Authorization polling (`wait_for_authorization` inside `sign`)

`ACMEClient.wait_for_authorization` polls the authorization URL with a
POST-as-GET in a `for _ in range(10)` loop: a `valid` status returns, a
`pending` status sleeps `_random_delay(3.0)` (a uniform value in
`[1.5, 3.0)` seconds) and polls again, any other status raises
`ACMEAuthorizationError(f"Status is {status}")`, and loop exhaustion
raises `ACMEAuthorizationError("Too many polls")`.  Inside `sign` the
whole wait is wrapped in `asyncio.wait_for(…, 60.0)`, which converts to
`ACMETimeoutError` exactly when the coroutine has not finished after 60
seconds of wall-clock time.

The model below abstracts each poll's `_post` as succeeding with a JSON
body `body i` after `netT i` seconds of network time (transport and
protocol failures of the poll itself propagate out of the loop in the
source and are outside the modelled claims), and takes the drawn random
delays as a function `sleepT`. -/

/-- `status = data.get("status") or "pending"`: a missing field, a JSON
`null` and the empty string are all falsy in Python and collapse to
`"pending"`.  Poll bodies are modelled with `status` either absent, null
or a string. -/
def pollStatus (body : Json) : String :=
  match body.get "status" with
  | some (.jstr s) => if s = "" then "pending" else s
  | _ => "pending"

/-- How one `wait_for_authorization` call ends. -/
inductive AuthOutcome where
  | valid : AuthOutcome
  | statusError : String → AuthOutcome
  | tooManyPolls : AuthOutcome
  deriving DecidableEq

/-- The polling loop with `k` iterations left, starting at poll index
`i` and accumulated elapsed time `t`; returns the outcome and the total
elapsed time at which the call finishes. -/
def wait_auth (body : Nat → Json) (netT sleepT : Nat → ℚ) :
    Nat → Nat → ℚ → AuthOutcome × ℚ
  | 0, _, t => (.tooManyPolls, t)
  | k + 1, i, t =>
    let t1 := t + netT i
    let s := pollStatus (body i)
    if s = "valid" then (.valid, t1)
    else if s = "pending" then
      wait_auth body netT sleepT k (i + 1) (t1 + sleepT i)
    else (.statusError ("Status is " ++ s), t1)

/-- `ACMEClient.wait_for_authorization`: the ten-iteration polling loop. -/
def wait_for_authorization (body : Nat → Json) (netT sleepT : Nat → ℚ) :
    AuthOutcome × ℚ :=
  wait_auth body netT sleepT 10 0 0

/-- The authorization-wait step of `ACMEClient.sign`:
`asyncio.wait_for(self.wait_for_authorization(auth), 60.0)`, with
`asyncio.TimeoutError` re-raised as `ACMETimeoutError`.  The deadline
fires exactly when the loop has not finished strictly before 60 s. -/
def sign_wait_step (body : Nat → Json) (netT sleepT : Nat → ℚ) :
    Except AcmeExc Unit :=
  let r := wait_for_authorization body netT sleepT
  if r.2 < 60 then
    match r.1 with
    | .valid => .ok ()
    | .statusError m => .error (.authorizationError m)
    | .tooManyPolls => .error (.authorizationError "Too many polls")
  else .error .timeoutError

/-- The possible values of one drawn `_random_delay(limit)` sleep:
`limit/2 + limit/2 * random()` with `random() ∈ [0, 1)`. -/
def random_delay_range (limit d : ℚ) : Prop :=
  limit / 2 ≤ d ∧ d < limit

/-! ## Key authorization (`get_key_authorization`) -/

/-- `ACMEClient.get_key_authorization`: the UTF-8 bytes of
`token + "." + encode_b64jose(key.thumbprint(hash_function=SHA256))`.
The SHA-256 JWK thumbprint of the account key is a library computation
(josepy / RFC 7638) and enters the model as the opaque byte string
`thumbprint`. -/
def get_key_authorization (thumbprint : Bytes) (challenge : ACMEChallenge) :
    Bytes :=
  utf8Bytes (challenge.token ++ "." ++ encode_b64jose thumbprint)

/-! ## Client state serialization (`get_state` / `from_state`) -/

/-- The constructor-relevant client fields the state blob captures.  The
serialized private JWK is opaque here (a string). -/
structure StateClient where
  directory : String
  key : String
  account_url : Option String
  deriving DecidableEq

/-- Modelled from the spec: `get_state` is not among the available
sources (only its tests and example callers are), so this follows
§4.10 of the specification — a JSON blob
`{directory, key: <JWK JSON with private>, account_url?: string}`,
with `account_url` omitted when the client is unbound. -/
def get_state (c : StateClient) : Json :=
  .jobj ([("directory", .jstr c.directory), ("key", .jstr c.key)] ++
    (match c.account_url with
     | none => []
     | some u => [("account_url", .jstr u)]))

/-- Modelled from the spec: `from_state` is not among the available
sources; per §4.10 it reconstructs a client from the blob's `directory`,
`key` and optional `account_url` fields. -/
def from_state (j : Json) : Option StateClient :=
  match j.get "directory", j.get "key" with
  | some (.jstr d), some (.jstr k) =>
    match j.get "account_url" with
    | some (.jstr u) => some { directory := d, key := k, account_url := some u }
    | some _ => none
    | none => some { directory := d, key := k, account_url := none }
  | _, _ => none

/-- Number of POST requests in a request trace. -/
def numPosts (t : List NetReq) : Nat :=
  t.countP (fun r => match r with | .post _ => true | _ => false)

deriving instance DecidableEq for Except

/-! # Theorems -/

/-! ## C3 — the response classifier -/

/-- C3 (amended): for every HTTP response the classifier treats status
< 400 as success; for status ≥ 400 it decodes the body as a JSON problem
document, raising the undecodable error exactly when decoding fails, and
otherwise maps the `type` field: the badNonce URN to the bad-nonce
error, the rateLimited URN to the rate-limit error, the unauthorized URN
to the unauthorized error, and any other type — including the
externalAccountRequired URN — to a generic ACME error carrying
`[status] type detail`. -/
theorem c3_check_response_classification (resp : HttpResponse) :
    (resp.statusCode < 400 → check_response resp = .ok ()) ∧
    (400 ≤ resp.statusCode → resp.jbody = none →
      check_response resp = .error .undecodableError) ∧
    (∀ j, 400 ≤ resp.statusCode → resp.jbody = some j →
      j.get "type" = some (.jstr "urn:ietf:params:acme:error:badNonce") →
      check_response resp = .error .badNonceError) ∧
    (∀ j, 400 ≤ resp.statusCode → resp.jbody = some j →
      j.get "type" = some (.jstr "urn:ietf:params:acme:error:rateLimited") →
      check_response resp = .error .rateLimitError) ∧
    (∀ j, 400 ≤ resp.statusCode → resp.jbody = some j →
      j.get "type" = some (.jstr "urn:ietf:params:acme:error:unauthorized") →
      check_response resp = .error .unauthorizedError) ∧
    (∀ j s det, 400 ≤ resp.statusCode → resp.jbody = some j →
      j.get "type" = some (.jstr s) →
      s ≠ "urn:ietf:params:acme:error:badNonce" →
      s ≠ "urn:ietf:params:acme:error:rateLimited" →
      s ≠ "urn:ietf:params:acme:error:unauthorized" →
      j.get "detail" = some (.jstr det) →
      check_response resp = .error (.acmeError
        ("[" ++ toString resp.statusCode ++ "] " ++ s ++ " " ++ det))) := by
  refine ⟨?_, ?_, ?_, ?_, ?_, ?_⟩
  · intro h
    simp [check_response, BAD_REQUEST, h]
  · intro h hb
    simp [check_response, BAD_REQUEST, Nat.not_lt.mpr h, hb]
  · intro j h hb ht
    simp [check_response, BAD_REQUEST, Nat.not_lt.mpr h, hb, ht]
  · intro j h hb ht
    simp [check_response, BAD_REQUEST, Nat.not_lt.mpr h, hb, ht]
  · intro j h hb ht
    simp [check_response, BAD_REQUEST, Nat.not_lt.mpr h, hb, ht]
  · intro j s det h hb ht h1 h2 h3 hd
    simp [check_response, BAD_REQUEST, Nat.not_lt.mpr h, hb, ht, h1, h2, h3,
      hd, Json.pyStr]

/-- C3 counterexample: a problem document whose `type` is the
externalAccountRequired URN is mapped to the generic ACME error, not to
a dedicated external-account-required error kind. -/
theorem c3_counterexample :
    check_response
      { statusCode := 403
        jbody := some (.jobj
          [("type",
            .jstr "urn:ietf:params:acme:error:externalAccountRequired"),
           ("detail", .jstr "EAB required")])
        replayNonce := none
        location := none } =
      .error (.acmeError
        ("[403] urn:ietf:params:acme:error:externalAccountRequired " ++
          "EAB required")) ∧
    check_response
      { statusCode := 403
        jbody := some (.jobj
          [("type",
            .jstr "urn:ietf:params:acme:error:externalAccountRequired"),
           ("detail", .jstr "EAB required")])
        replayNonce := none
        location := none } ≠
      .error .externalAccountRequired := by
  constructor
  · rfl
  · decide

/-- C3 witness: the classifier evaluated on the scenario-S4 inputs and on
a success response, via `c3_check_response_classification`. -/
theorem c3_witness :
    check_response ⟨200, none, none, none⟩ = .ok () ∧
    check_response ⟨400, none, none, none⟩ = .error .undecodableError ∧
    check_response
      ⟨400, some (.jobj [("type",
        .jstr "urn:ietf:params:acme:error:badNonce")]), none, none⟩ =
      .error .badNonceError ∧
    check_response
      ⟨429, some (.jobj [("type",
        .jstr "urn:ietf:params:acme:error:rateLimited")]), none, none⟩ =
      .error .rateLimitError ∧
    check_response
      ⟨401, some (.jobj [("type",
        .jstr "urn:ietf:params:acme:error:unauthorized")]), none, none⟩ =
      .error .unauthorizedError ∧
    check_response
      ⟨400, some (.jobj [("type",
        .jstr "urn:ietf:params:acme:error:badSignatureAlgorithm"),
        ("detail", .jstr "oops")]), none, none⟩ =
      .error (.acmeError
        "[400] urn:ietf:params:acme:error:badSignatureAlgorithm oops") := by
  refine ⟨?_, ?_, ?_, ?_, ?_, ?_⟩
  · exact (c3_check_response_classification _).1 (by norm_num)
  · exact (c3_check_response_classification _).2.1 (by norm_num) rfl
  · exact (c3_check_response_classification _).2.2.1 _ (by norm_num) rfl rfl
  · exact (c3_check_response_classification _).2.2.2.1 _ (by norm_num) rfl rfl
  · exact (c3_check_response_classification _).2.2.2.2.1 _ (by norm_num) rfl
      rfl
  · exact (c3_check_response_classification
      ⟨400, some (.jobj [("type",
        .jstr "urn:ietf:params:acme:error:badSignatureAlgorithm"),
        ("detail", .jstr "oops")]), none, none⟩).2.2.2.2.2
      (.jobj [("type",
        .jstr "urn:ietf:params:acme:error:badSignatureAlgorithm"),
        ("detail", .jstr "oops")])
      "urn:ietf:params:acme:error:badSignatureAlgorithm" "oops"
      (by norm_num) rfl rfl (by decide) (by decide) (by decide) rfl

/-! ## C5 — nonce harvesting -/

/-- C5: for every response carrying a `Replay-Nonce` header the
harvester base64url-decodes the value and inserts the bytes into the
pool; inserting a nonce already present raises `ACMEError("Duplicated
nonce")`; an undecodable value raises the bad-nonce error; and the
header value `oFvnlFP1wIhRlYS2jTaXbA` decodes to the byte sequence
`a0 5b e7 94 53 f5 c0 88 51 95 84 b6 8d 36 97 6c`. -/
theorem c5_nonce_harvest (st : ClientSt) (resp : HttpResponse) (ns : String)
    (b : Bytes) :
    (resp.replayNonce = some ns → decode_b64jose ns = some b →
      b ∉ st.nonces →
      nonce_from_response st resp =
        .ok { st with nonces := st.nonces ++ [b] }) ∧
    (resp.replayNonce = some ns → decode_b64jose ns = some b →
      b ∈ st.nonces →
      nonce_from_response st resp = .error (.acmeError "Duplicated nonce")) ∧
    (resp.replayNonce = some ns → decode_b64jose ns = none →
      nonce_from_response st resp = .error .badNonceError) ∧
    decode_b64jose "oFvnlFP1wIhRlYS2jTaXbA" =
      some [160, 91, 231, 148, 83, 245, 192, 136, 81, 149, 132, 182, 141,
        54, 151, 108] := by
  refine ⟨?_, ?_, ?_, by rfl⟩
  · intro hr hd hmem
    simp [nonce_from_response, hr, hd, hmem]
  · intro hr hd hmem
    simp [nonce_from_response, hr, hd, hmem]
  · intro hr hd
    simp [nonce_from_response, hr, hd]

/-- C5 witness: harvesting the scenario-S3 header into an empty pool
inserts the expected bytes, and harvesting it again is the duplicate
error, via `c5_nonce_harvest`. -/
theorem c5_witness :
    nonce_from_response ⟨"https://d", none, none, []⟩
      ⟨200, none, some "oFvnlFP1wIhRlYS2jTaXbA", none⟩ =
      .ok ⟨"https://d", none, none,
        [[160, 91, 231, 148, 83, 245, 192, 136, 81, 149, 132, 182,
          141, 54, 151, 108]]⟩ ∧
    nonce_from_response
      ⟨"https://d", none, none,
        [[160, 91, 231, 148, 83, 245, 192, 136, 81, 149, 132, 182,
          141, 54, 151, 108]]⟩
      ⟨200, none, some "oFvnlFP1wIhRlYS2jTaXbA", none⟩ =
      .error (.acmeError "Duplicated nonce") ∧
    nonce_from_response ⟨"https://d", none, none, []⟩
      ⟨200, none, some "x", none⟩ = .error .badNonceError := by
  refine ⟨?_, ?_, ?_⟩
  · exact (c5_nonce_harvest _ _ _ _).1 rfl (by rfl) (by decide)
  · exact (c5_nonce_harvest _ _ _ _).2.1 rfl (by rfl) (by decide)
  · exact (c5_nonce_harvest _ _ "x" []).2.2.1 rfl (by rfl)

/-! ## C6 — key authorization -/

/-- UTF-8 encoding distributes over string concatenation. -/
theorem utf8Bytes_append (s t : String) :
    utf8Bytes (s ++ t) = utf8Bytes s ++ utf8Bytes t := by
  simp [utf8Bytes, String.data_append]

/-- Every base64url alphabet character differs from the padding
character. -/
theorem b64urlValChar_ne_pad : ∀ n, n < 64 → b64urlValChar n ≠ '=' := by
  decide

/-- The base64url encoding of a byte string contains no padding
character. -/
theorem b64urlEncodeBytes_no_pad (bs : Bytes) (h : ∀ b ∈ bs, b < 256) :
    '=' ∉ b64urlEncodeBytes bs := by
  induction bs using b64urlEncodeBytes.induct with
  | case1 => simp [b64urlEncodeBytes]
  | case2 a =>
    have ha : a < 256 := h a (by simp)
    simp only [b64urlEncodeBytes, List.mem_cons, List.not_mem_nil, or_false]
    push_neg
    exact ⟨Ne.symm (b64urlValChar_ne_pad _ (by omega)),
      Ne.symm (b64urlValChar_ne_pad _ (by omega))⟩
  | case3 a b =>
    have ha : a < 256 := h a (by simp)
    have hb : b < 256 := h b (by simp)
    simp only [b64urlEncodeBytes, List.mem_cons, List.not_mem_nil, or_false]
    push_neg
    exact ⟨Ne.symm (b64urlValChar_ne_pad _ (by omega)),
      Ne.symm (b64urlValChar_ne_pad _ (by omega)),
      Ne.symm (b64urlValChar_ne_pad _ (by omega))⟩
  | case4 a b c rest ih =>
    have ha : a < 256 := h a (by simp)
    have hb : b < 256 := h b (by simp)
    have hc : c < 256 := h c (by simp)
    have hrest : ∀ x ∈ rest, x < 256 := fun x hx => h x (by simp [hx])
    simp only [b64urlEncodeBytes, List.mem_cons]
    push_neg
    exact ⟨Ne.symm (b64urlValChar_ne_pad _ (by omega)),
      Ne.symm (b64urlValChar_ne_pad _ (by omega)),
      Ne.symm (b64urlValChar_ne_pad _ (by omega)),
      Ne.symm (b64urlValChar_ne_pad _ (by omega)),
      ih hrest⟩

/-- C6: for every challenge the key authorization is the UTF-8/ASCII
bytes of the challenge token, a `.` separator, and the unpadded
base64url of the account key's SHA-256 JWK thumbprint. -/
theorem c6_key_authorization (thumbprint : Bytes) (ch : ACMEChallenge) :
    get_key_authorization thumbprint ch =
      utf8Bytes ch.token ++ utf8Bytes "." ++
        utf8Bytes (encode_b64jose thumbprint) ∧
    ((∀ b ∈ thumbprint, b < 256) →
      '=' ∉ (encode_b64jose thumbprint).data) := by
  constructor
  · simp [get_key_authorization, utf8Bytes_append]
  · intro h
    simpa [encode_b64jose] using b64urlEncodeBytes_no_pad thumbprint h

/-- C6 witness: the key authorization of a concrete token and a concrete
16-byte thumbprint, via `c6_key_authorization`. -/
theorem c6_witness :
    get_key_authorization
      [160, 91, 231, 148, 83, 245, 192, 136, 81, 149, 132, 182, 141, 54,
        151, 108]
      ⟨"http-01", "https://u", "tok42"⟩ =
      utf8Bytes "tok42" ++ utf8Bytes "." ++
        utf8Bytes "oFvnlFP1wIhRlYS2jTaXbA" ∧
    '=' ∉ (encode_b64jose
      [160, 91, 231, 148, 83, 245, 192, 136, 81, 149, 132, 182, 141, 54,
        151, 108]).data := by
  constructor
  · exact (c6_key_authorization _ _).1
  · exact (c6_key_authorization
      [160, 91, 231, 148, 83, 245, 192, 136, 81, 149, 132, 182, 141, 54,
        151, 108] ⟨"http-01", "https://u", "tok42"⟩).2 (by decide)

/-! ## C7 — client state round-trip -/

/-- C7: reconstructing a client from its serialized state yields equal
directory URL, key and account URL (including the unbound case), and the
state blob carries exactly those fields. -/
theorem c7_state_round_trip (c : StateClient) :
    from_state (get_state c) = some c ∧
    (get_state c).get "directory" = some (.jstr c.directory) ∧
    (get_state c).get "key" = some (.jstr c.key) ∧
    (∀ u, c.account_url = some u →
      (get_state c).get "account_url" = some (.jstr u)) ∧
    (c.account_url = none → (get_state c).get "account_url" = none) := by
  obtain ⟨d, k, a⟩ := c
  cases a with
  | none =>
    refine ⟨rfl, rfl, rfl, ?_, fun _ => rfl⟩
    intro u hu
    simp at hu
  | some u =>
    refine ⟨rfl, rfl, rfl, ?_, ?_⟩
    · intro v hv
      simp only [Option.some.injEq] at hv
      subst hv
      rfl
    · intro hu
      simp at hu

/-- C7 witness: the round-trip evaluated on a bound and an unbound
client, via `c7_state_round_trip`. -/
theorem c7_witness :
    from_state (get_state ⟨"https://dir", "jwk-json", none⟩) =
      some ⟨"https://dir", "jwk-json", none⟩ ∧
    from_state (get_state ⟨"https://dir", "jwk-json", some "https://acc"⟩) =
      some ⟨"https://dir", "jwk-json", some "https://acc"⟩ ∧
    (get_state ⟨"https://dir", "jwk-json", some "https://acc"⟩).get
      "account_url" = some (.jstr "https://acc") ∧
    (get_state ⟨"https://dir", "jwk-json", none⟩).get "account_url" =
      none := by
  refine ⟨?_, ?_, ?_, ?_⟩
  · exact (c7_state_round_trip _).1
  · exact (c7_state_round_trip _).1
  · exact (c7_state_round_trip
      ⟨"https://dir", "jwk-json", some "https://acc"⟩).2.2.2.1 _ rfl
  · exact (c7_state_round_trip
      ⟨"https://dir", "jwk-json", none⟩).2.2.2.2 rfl

/-! ## C8 — empty pool, refill response without a nonce -/

/-- C8: when the pool is empty and the refill HEAD response (sent to
`directory.newNonce`, or to the target URL when `newNonce` is absent)
carries no `Replay-Nonce` header, `_get_nonce` fails with a bare Python
`KeyError` from popping an empty set — not with any ACME error kind. -/
theorem c8_get_nonce_empty_pop (url du : String) (au : Option String)
    (d : ACMEDirectory) (r : HttpResponse) (rest : List HttpResponse)
    (tr : List NetReq)
    (hstatus : r.statusCode < 400) (hrn : r.replayNonce = none) :
    ACMEClient.get_nonce url ⟨⟨du, some d, au, []⟩, r :: rest, tr⟩ =
      (.error .pyKeyError,
       ⟨⟨du, some d, au, []⟩, rest,
        tr ++ [.head (match d.new_nonce with | some u => u | none => url)]⟩) ∧
    AcmeExc.isAcmeError .pyKeyError = false := by
  refine ⟨?_, rfl⟩
  cases hnn : d.new_nonce with
  | none =>
    simp [ACMEClient.get_nonce, ACMEClient.get_directory, ACMEClient.head,
      netSend, nonce_from_response, hrn, hnn, check_response, BAD_REQUEST,
      hstatus]
  | some u =>
    simp [ACMEClient.get_nonce, ACMEClient.get_directory, ACMEClient.head,
      netSend, nonce_from_response, hrn, hnn, check_response, BAD_REQUEST,
      hstatus]

/-- C8 witness: the empty-pool `KeyError` on a concrete environment with
a `newNonce` endpoint and on one without, via `c8_get_nonce_empty_pop`. -/
theorem c8_witness :
    ACMEClient.get_nonce "https://target"
      ⟨⟨"https://d", some ⟨"https://na", some "https://nn", "https://no"⟩,
        none, []⟩, [⟨200, none, none, none⟩], []⟩ =
      (.error .pyKeyError,
       ⟨⟨"https://d", some ⟨"https://na", some "https://nn", "https://no"⟩,
         none, []⟩, [], [.head "https://nn"]⟩) ∧
    ACMEClient.get_nonce "https://target"
      ⟨⟨"https://d", some ⟨"https://na", none, "https://no"⟩,
        none, []⟩, [⟨200, none, none, none⟩], []⟩ =
      (.error .pyKeyError,
       ⟨⟨"https://d", some ⟨"https://na", none, "https://no"⟩,
         none, []⟩, [], [.head "https://target"]⟩) ∧
    AcmeExc.isAcmeError .pyKeyError = false := by
  refine ⟨?_, ?_, ?_⟩
  · exact (c8_get_nonce_empty_pop "https://target" "https://d" none
      ⟨"https://na", some "https://nn", "https://no"⟩
      ⟨200, none, none, none⟩ [] [] (by norm_num) rfl).1
  · exact (c8_get_nonce_empty_pop "https://target" "https://d" none
      ⟨"https://na", none, "https://no"⟩
      ⟨200, none, none, none⟩ [] [] (by norm_num) rfl).1
  · exact (c8_get_nonce_empty_pop "u" "d" none ⟨"a", none, "o"⟩
      ⟨200, none, none, none⟩ [] [] (by norm_num) rfl).2

/-! ## C10 — missing, null or empty poll status -/

/-- C10: a poll body whose `status` field is absent, JSON `null`, or the
empty string is treated exactly like `"pending"`: the loop sleeps and
polls again instead of raising. -/
theorem c10_missing_status_is_pending (body : Nat → Json)
    (netT sleepT : Nat → ℚ) (k i : Nat) (t : ℚ)
    (h : (body i).get "status" = none ∨ (body i).get "status" = some .jnull ∨
      (body i).get "status" = some (.jstr "")) :
    pollStatus (body i) = "pending" ∧
    wait_auth body netT sleepT (k + 1) i t =
      wait_auth body netT sleepT k (i + 1) (t + netT i + sleepT i) := by
  have hp : pollStatus (body i) = "pending" := by
    rcases h with h | h | h <;> simp [pollStatus, h]
  refine ⟨hp, ?_⟩
  simp [wait_auth, hp]

/-- C10 witness: one polling step on a body with no `status` field, one
with a null `status` and one with an empty `status`, via
`c10_missing_status_is_pending`. -/
theorem c10_witness :
    pollStatus (.jobj []) = "pending" ∧
    pollStatus (.jobj [("status", .jnull)]) = "pending" ∧
    pollStatus (.jobj [("status", .jstr "")]) = "pending" ∧
    wait_auth (fun _ => .jobj []) (fun _ => 0) (fun _ => 2) 10 0 0 =
      wait_auth (fun _ => .jobj []) (fun _ => 0) (fun _ => 2) 9 1
        (0 + 0 + 2) := by
  refine ⟨?_, ?_, ?_, ?_⟩
  · exact (c10_missing_status_is_pending (fun _ => .jobj []) (fun _ => 0)
      (fun _ => 2) 0 0 0 (Or.inl rfl)).1
  · exact (c10_missing_status_is_pending (fun _ => .jobj [("status", .jnull)])
      (fun _ => 0) (fun _ => 2) 0 0 0 (Or.inr (Or.inl rfl))).1
  · exact (c10_missing_status_is_pending
      (fun _ => .jobj [("status", .jstr "")]) (fun _ => 0) (fun _ => 2) 0 0 0
      (Or.inr (Or.inr rfl))).1
  · exact (c10_missing_status_is_pending (fun _ => .jobj []) (fun _ => 0)
      (fun _ => 2) 9 0 0 (Or.inl rfl)).2

/-! ## C9 — positional pairing of identifiers and authorizations -/

/-- C9: the order returned by `new_order` pairs the requested identifiers
with the server's `authorizations[]` positionally: the length is the
minimum of the two lengths, entry `k` carries the domain of identifier
`k` and authorization URL `k`, and a length mismatch is dropped silently
— on the success path `new_order` still returns `ok` with the truncated
pairing. -/
theorem c9_new_order_zip (ids : List ACMEIdentifier) (auths : List String)
    (fin : String) :
    (order_from ids auths fin).authorizations.length =
      min ids.length auths.length ∧
    (∀ k (h1 : k < ids.length) (h2 : k < auths.length),
      (order_from ids auths fin).authorizations[k]? =
        some ⟨ids[k].value, auths[k]⟩) ∧
    (∀ (domains : List String) (du au : String) (d : ACMEDirectory)
       (n : Bytes) (ns : List Bytes) (resp : HttpResponse)
       (rest : List HttpResponse) (tr : List NetReq),
      resp.statusCode < 400 → resp.replayNonce = none →
      parse_order_body resp.jbody = .ok (auths, fin) →
      (ACMEClient.new_order domains
        ⟨⟨du, some d, some au, n :: ns⟩, resp :: rest, tr⟩).1 =
        .ok (order_from (domain_to_identifiers domains) auths fin)) := by
  refine ⟨?_, ?_, ?_⟩
  · simp [order_from, List.length_zip]
  · intro k h1 h2
    have hk : k < (ids.zip auths).length := by
      rw [List.length_zip]; omega
    simp only [order_from, List.getElem?_map,
      List.getElem?_eq_getElem hk, List.getElem_zip, Option.map_some]
    rfl
  · intro domains du au d n ns resp rest tr hstatus hrn hparse
    simp [ACMEClient.new_order, check_bound, is_bound,
      ACMEClient.get_directory, ACMEClient.post, ACMEClient.post_once,
      ACMEClient.get_nonce, netSend, check_response, BAD_REQUEST, hstatus,
      nonce_from_response, hrn, hparse]

/-- C9 witness: a `new_order` call with two identifiers against a server
response carrying three authorization URLs succeeds and silently drops
the surplus URL, via `c9_new_order_zip`. -/
theorem c9_witness :
    (ACMEClient.new_order ["example.com", "sub.example.com"]
      ⟨⟨"https://d", some ⟨"https://na", some "https://nn", "https://no"⟩,
        some "https://acc", [[7]]⟩,
       [⟨201, some (.jobj
          [("authorizations",
            .jarr [.jstr "https://a1", .jstr "https://a2", .jstr "https://a3"]),
           ("finalize", .jstr "https://fin")]), none, some "https://ord"⟩],
       []⟩).1 =
      .ok ⟨[⟨"example.com", "https://a1"⟩, ⟨"sub.example.com", "https://a2"⟩],
        "https://fin"⟩ ∧
    (order_from (domain_to_identifiers ["example.com", "sub.example.com"])
      ["https://a1", "https://a2", "https://a3"] "https://fin").authorizations.length = 2 := by
  constructor
  · exact (c9_new_order_zip (domain_to_identifiers
      ["example.com", "sub.example.com"])
      ["https://a1", "https://a2", "https://a3"] "https://fin").2.2
      ["example.com", "sub.example.com"] "https://d" "https://acc"
      ⟨"https://na", some "https://nn", "https://no"⟩ [7] []
      ⟨201, some (.jobj
        [("authorizations",
          .jarr [.jstr "https://a1", .jstr "https://a2", .jstr "https://a3"]),
         ("finalize", .jstr "https://fin")]), none, some "https://ord"⟩
      [] [] (by norm_num) rfl (by rfl)
  · exact (c9_new_order_zip (domain_to_identifiers
      ["example.com", "sub.example.com"])
      ["https://a1", "https://a2", "https://a3"] "https://fin").1

/-! ## C2 — authorization polling and its termination -/

/-- If the first `j` polls are pending and poll `j` is valid, the loop
returns `valid` (as long as poll `j` falls within the iteration budget). -/
theorem wait_auth_first_valid (body : Nat → Json) (netT sleepT : Nat → ℚ) :
    ∀ j k i t, j < k →
    (∀ m, m < j → pollStatus (body (i + m)) = "pending") →
    pollStatus (body (i + j)) = "valid" →
    (wait_auth body netT sleepT k i t).1 = .valid := by
  intro j
  induction j with
  | zero =>
    intro k i t hk hpend hv
    match k, hk with
    | k + 1, _ =>
      rw [Nat.add_zero] at hv
      simp [wait_auth, hv]
  | succ j ih =>
    intro k i t hk hpend hv
    match k, hk with
    | k + 1, hk =>
      have h0 : pollStatus (body i) = "pending" := by
        have := hpend 0 (by omega)
        simpa using this
      simp only [wait_auth, h0]
      norm_num
      apply ih k (i + 1) _ (by omega)
      · intro m hm
        have heq : i + 1 + m = i + (m + 1) := by omega
        rw [heq]
        exact hpend (m + 1) (by omega)
      · have heq : i + 1 + j = i + (j + 1) := by omega
        rw [heq]
        exact hv

/-- If the first `j` polls are pending and poll `j` has a status other
than valid or pending, the loop raises the authorization error naming
that status. -/
theorem wait_auth_first_other (body : Nat → Json) (netT sleepT : Nat → ℚ) :
    ∀ j k i t s, j < k →
    (∀ m, m < j → pollStatus (body (i + m)) = "pending") →
    pollStatus (body (i + j)) = s → s ≠ "valid" → s ≠ "pending" →
    (wait_auth body netT sleepT k i t).1 =
      .statusError ("Status is " ++ s) := by
  intro j
  induction j with
  | zero =>
    intro k i t s hk hpend hs hnv hnp
    match k, hk with
    | k + 1, _ =>
      rw [Nat.add_zero] at hs
      simp [wait_auth, hs, hnv, hnp]
  | succ j ih =>
    intro k i t s hk hpend hs hnv hnp
    match k, hk with
    | k + 1, hk =>
      have h0 : pollStatus (body i) = "pending" := by
        have := hpend 0 (by omega)
        simpa using this
      simp only [wait_auth, h0]
      norm_num
      apply ih k (i + 1) _ s (by omega) ?_ ?_ hnv hnp
      · intro m hm
        have heq : i + 1 + m = i + (m + 1) := by omega
        rw [heq]
        exact hpend (m + 1) (by omega)
      · have heq : i + 1 + j = i + (j + 1) := by omega
        rw [heq]
        exact hs

/-- If every poll within the budget is pending, the loop exhausts its
iterations and reports too many polls. -/
theorem wait_auth_all_pending (body : Nat → Json) (netT sleepT : Nat → ℚ) :
    ∀ k i t, (∀ m, m < k → pollStatus (body (i + m)) = "pending") →
    (wait_auth body netT sleepT k i t).1 = .tooManyPolls := by
  intro k
  induction k with
  | zero => intro i t _; rfl
  | succ k ih =>
    intro i t hpend
    have h0 : pollStatus (body i) = "pending" := by
      have := hpend 0 (by omega)
      simpa using this
    simp only [wait_auth, h0]
    norm_num
    apply ih (i + 1)
    intro m hm
    have heq : i + 1 + m = i + (m + 1) := by omega
    rw [heq]
    exact hpend (m + 1) (by omega)

/-- With instantaneous responses and sleeps below three seconds, the
loop finishes within three seconds per remaining iteration. -/
theorem wait_auth_time_bound (body : Nat → Json) (netT sleepT : Nat → ℚ)
    (hnet : ∀ m, netT m = 0) (hsleep : ∀ m, sleepT m < 3) :
    ∀ k i t, (wait_auth body netT sleepT k i t).2 ≤ t + 3 * k := by
  intro k
  induction k with
  | zero => intro i t; simp [wait_auth]
  | succ k ih =>
    intro i t
    by_cases hv : pollStatus (body i) = "valid"
    · simp [wait_auth, hv, hnet i]
      positivity
    · by_cases hp : pollStatus (body i) = "pending"
      · simp only [wait_auth, hv, hp]
        norm_num
        calc (wait_auth body netT sleepT k (i + 1)
            (t + netT i + sleepT i)).2
            ≤ t + netT i + sleepT i + 3 * k := ih (i + 1) _
          _ ≤ t + 3 * (k + 1) := by
            have h1 := hsleep i
            have h2 := hnet i
            rw [h2]
            linarith
      · simp [wait_auth, hv, hp, hnet i]
        positivity

/-- C2 (amended): during sign, authorization polling repeats a
POST-as-GET while the status is pending (sleeping a bounded random
delay), returns as soon as the status is valid, and raises an
authorization error naming the status for any other status; but the
loop is capped at ten polls, so an authorization that stays pending
forever ends with `ACMEAuthorizationError("Too many polls")` whenever
the ten polls complete within the 60-second budget — with instantaneous
responses the ten sleeps total under 30 s, so the
`asyncio.wait_for(…, 60.0)` deadline in `sign` never fires and no
timeout error is raised; the deadline converts to a timeout error only
when the polls themselves consume the full 60 s. -/
theorem c2_wait_for_authorization (body : Nat → Json)
    (netT sleepT : Nat → ℚ)
    (hsleep : ∀ i, random_delay_range 3 (sleepT i)) :
    (∀ j, j < 10 → (∀ m, m < j → pollStatus (body m) = "pending") →
      pollStatus (body j) = "valid" →
      (wait_for_authorization body netT sleepT).1 = .valid) ∧
    (∀ j s, j < 10 → (∀ m, m < j → pollStatus (body m) = "pending") →
      pollStatus (body j) = s → s ≠ "valid" → s ≠ "pending" →
      (wait_for_authorization body netT sleepT).1 =
        .statusError ("Status is " ++ s)) ∧
    ((∀ m, m < 10 → pollStatus (body m) = "pending") →
      (wait_for_authorization body netT sleepT).1 = .tooManyPolls) ∧
    ((∀ m, m < 10 → pollStatus (body m) = "pending") →
      (wait_for_authorization body netT sleepT).2 < 60 →
      sign_wait_step body netT sleepT =
        .error (.authorizationError "Too many polls")) ∧
    (¬ (wait_for_authorization body netT sleepT).2 < 60 →
      sign_wait_step body netT sleepT = .error .timeoutError) ∧
    ((∀ m, netT m = 0) →
      (wait_for_authorization body netT sleepT).2 < 60) := by
  refine ⟨?_, ?_, ?_, ?_, ?_, ?_⟩
  · intro j hj hpend hv
    exact wait_auth_first_valid body netT sleepT j 10 0 0 hj
      (by simpa using hpend) (by simpa using hv)
  · intro j s hj hpend hs hnv hnp
    exact wait_auth_first_other body netT sleepT j 10 0 0 s hj
      (by simpa using hpend) (by simpa using hs) hnv hnp
  · intro hpend
    exact wait_auth_all_pending body netT sleepT 10 0 0
      (by simpa using hpend)
  · intro hpend ht
    have h1 := wait_auth_all_pending body netT sleepT 10 0 0
      (by simpa using hpend)
    simp only [sign_wait_step, wait_for_authorization] at ht h1 ⊢
    rw [if_pos ht, h1]
  · intro ht
    simp only [sign_wait_step] at ht ⊢
    rw [if_neg ht]
  · intro hnet
    have hb := wait_auth_time_bound body netT sleepT hnet
      (fun m => (hsleep m).2) 10 0 0
    simp only [wait_for_authorization]
    calc (wait_auth body netT sleepT 10 0 0).2 ≤ 0 + 3 * 10 := hb
      _ < 60 := by norm_num

/-- C2 counterexample: an authorization that stays pending forever, with
instantaneous responses and admissible random delays of 1.5 s, ends
after ten polls at 15 s of wall-clock time with
`ACMEAuthorizationError("Too many polls")` — not at the 60-second
deadline, and not with a timeout error. -/
theorem c2_counterexample :
    wait_for_authorization (fun _ => .jobj [("status", .jstr "pending")])
      (fun _ => 0) (fun _ => 3 / 2) = (.tooManyPolls, 15) ∧
    sign_wait_step (fun _ => .jobj [("status", .jstr "pending")])
      (fun _ => 0) (fun _ => 3 / 2) =
      .error (.authorizationError "Too many polls") ∧
    (Except.error (AcmeExc.authorizationError "Too many polls") :
      Except AcmeExc Unit) ≠ .error .timeoutError ∧
    random_delay_range 3 (3 / 2) ∧ (15 : ℚ) < 60 := by
  refine ⟨?_, ?_, by decide, ⟨by norm_num, by norm_num⟩, by norm_num⟩
  · simp [wait_for_authorization, wait_auth, pollStatus, Json.get]
    norm_num
  · simp [sign_wait_step, wait_for_authorization, wait_auth, pollStatus,
      Json.get]
    norm_num

/-- C2 witness: the amended behaviour on concrete runs — an
always-pending authorization (sleeps of 2 s), one that becomes valid at
the third poll, and one that turns invalid — via
`c2_wait_for_authorization`. -/
theorem c2_witness :
    (wait_for_authorization (fun _ => .jobj [("status", .jstr "pending")])
      (fun _ => 0) (fun _ => 2)).1 = .tooManyPolls ∧
    sign_wait_step (fun _ => .jobj [("status", .jstr "pending")])
      (fun _ => 0) (fun _ => 2) =
      .error (.authorizationError "Too many polls") ∧
    (wait_for_authorization
      (fun i => if i < 2 then .jobj [("status", .jstr "pending")]
        else .jobj [("status", .jstr "valid")])
      (fun _ => 0) (fun _ => 2)).1 = .valid ∧
    (wait_for_authorization
      (fun i => if i < 1 then .jobj [("status", .jstr "pending")]
        else .jobj [("status", .jstr "invalid")])
      (fun _ => 0) (fun _ => 2)).1 =
      .statusError "Status is invalid" := by
  have hs : ∀ i : Nat, random_delay_range 3 ((fun _ : Nat => (2 : ℚ)) i) :=
    fun i => ⟨by norm_num, by norm_num⟩
  have h1 := c2_wait_for_authorization
    (fun _ => .jobj [("status", .jstr "pending")]) (fun _ => 0) (fun _ => 2)
    hs
  have hpend : ∀ m : Nat, m < 10 →
      pollStatus ((fun _ : Nat => Json.jobj [("status", Json.jstr "pending")])
        m) = "pending" := fun m _ => rfl
  have ht := h1.2.2.2.2.2 (fun m => rfl)
  refine ⟨h1.2.2.1 hpend, h1.2.2.2.1 hpend ht, ?_, ?_⟩
  · have h2 := c2_wait_for_authorization
      (fun i => if i < 2 then .jobj [("status", .jstr "pending")]
        else .jobj [("status", .jstr "valid")]) (fun _ => 0) (fun _ => 2) hs
    apply h2.1 2 (by norm_num)
    · intro m hm
      interval_cases m <;> rfl
    · rfl
  · have h3 := c2_wait_for_authorization
      (fun i => if i < 1 then .jobj [("status", .jstr "pending")]
        else .jobj [("status", .jstr "invalid")]) (fun _ => 0) (fun _ => 2) hs
    apply h3.2.1 1 "invalid" (by norm_num) ?_ rfl (by decide) (by decide)
    intro m hm
    interval_cases m <;> rfl

/-! ## C1 — single retry on bad nonce -/

/-- A GET adds no POST to the trace. -/
theorem numPosts_netSend_get (u : String) (e : Env) :
    numPosts (netSend (.get u) e).2.trace = numPosts e.trace := by
  rcases e with ⟨st, net, tr⟩
  cases net <;>
    simp [netSend, numPosts, List.countP_append, List.countP_cons]

/-- A HEAD adds no POST to the trace. -/
theorem numPosts_netSend_head (u : String) (e : Env) :
    numPosts (netSend (.head u) e).2.trace = numPosts e.trace := by
  rcases e with ⟨st, net, tr⟩
  cases net <;>
    simp [netSend, numPosts, List.countP_append, List.countP_cons]

/-- A POST adds exactly one POST to the trace. -/
theorem numPosts_netSend_post (u : String) (e : Env) :
    numPosts (netSend (.post u) e).2.trace = numPosts e.trace + 1 := by
  rcases e with ⟨st, net, tr⟩
  cases net <;>
    simp [netSend, numPosts, List.countP_append, List.countP_cons]

/-- Fetching the directory sends no POST. -/
theorem numPosts_get_directory (e : Env) :
    numPosts (ACMEClient.get_directory e).2.trace = numPosts e.trace := by
  unfold ACMEClient.get_directory
  split
  · rfl
  · split
    next ex e1 heq =>
      have h := numPosts_netSend_get e.st.directory_url e
      rw [heq] at h
      exact h
    next r e1 heq =>
      have h := numPosts_netSend_get e.st.directory_url e
      rw [heq] at h
      split
      · exact h
      · split
        · exact h
        · exact h

/-- A `_head` call sends no POST. -/
theorem numPosts_head (u : String) (e : Env) :
    numPosts (ACMEClient.head u e).2.trace = numPosts e.trace := by
  unfold ACMEClient.head
  split
  next ex e1 heq =>
    have h := numPosts_netSend_head u e
    rw [heq] at h
    exact h
  next r e1 heq =>
    have h := numPosts_netSend_head u e
    rw [heq] at h
    split
    · exact h
    · split
      · exact h
      · exact h

/-- Acquiring a nonce sends no POST (only a GET and a HEAD at most). -/
theorem numPosts_get_nonce (url : String) (e : Env) :
    numPosts (ACMEClient.get_nonce url e).2.trace = numPosts e.trace := by
  unfold ACMEClient.get_nonce
  split
  · rfl
  · split
    next ex e1 heq =>
      have h1 := numPosts_get_directory e
      rw [heq] at h1
      exact h1
    next d e1 heq =>
      have h1 := numPosts_get_directory e
      rw [heq] at h1
      split
      next ex e2 heq2 =>
        have h2 := numPosts_head
          (match d.new_nonce with | none => url | some u => u) e1
        rw [heq2] at h2
        exact h2.trans h1
      next resp e2 heq2 =>
        have h2 := numPosts_head
          (match d.new_nonce with | none => url | some u => u) e1
        rw [heq2] at h2
        split
        · exact h2.trans h1
        · split
          · exact h2.trans h1
          · exact h2.trans h1

/-- One `_post_once` attempt sends at most one POST. -/
theorem numPosts_post_once (url : String) (data : Option Json) (e : Env) :
    numPosts (ACMEClient.post_once url data e).env.trace ≤
      numPosts e.trace + 1 := by
  unfold ACMEClient.post_once
  split
  next ex e1 heq =>
    have h0 := numPosts_get_nonce url e
    rw [heq] at h0
    have h1 : numPosts e1.trace = numPosts e.trace := h0
    show numPosts e1.trace ≤ numPosts e.trace + 1
    omega
  next nonce e1 heq =>
    have h0 := numPosts_get_nonce url e
    rw [heq] at h0
    have h1 : numPosts e1.trace = numPosts e.trace := h0
    split
    next ex e2 heq2 =>
      have h3 := numPosts_netSend_post url e1
      rw [heq2] at h3
      have h2 : numPosts e2.trace = numPosts e1.trace + 1 := h3
      show numPosts e2.trace ≤ numPosts e.trace + 1
      omega
    next resp e2 heq2 =>
      have h3 := numPosts_netSend_post url e1
      rw [heq2] at h3
      have h2 : numPosts e2.trace = numPosts e1.trace + 1 := h3
      split
      · show numPosts e2.trace ≤ numPosts e.trace + 1
        omega
      · split
        · show numPosts e2.trace ≤ numPosts e.trace + 1
          omega
        · show numPosts e2.trace ≤ numPosts e.trace + 1
          omega

/-- Every `_post_once` attempt — a first attempt and a retry alike —
consumes exactly the nonce that its own `_get_nonce` call acquires. -/
theorem post_once_nonce_fresh (url : String) (data : Option Json) (e : Env) :
    (ACMEClient.post_once url data e).nonceUsed =
      (ACMEClient.get_nonce url e).1.toOption := by
  unfold ACMEClient.post_once
  split
  next ex e1 heq =>
    rw [heq]
    rfl
  next nonce e1 heq =>
    rw [heq]
    split
    · rfl
    · split
      · rfl
      · split
        · rfl
        · rfl

/-- C1: a signed POST performs at most two attempts (at most two POSTs
on the wire); a second attempt happens exactly when the first raised the
bad-nonce error; the retry is one full fresh attempt — starting from the
state the first attempt left, acquiring its nonce anew via `_get_nonce`
— and any other outcome of the first attempt, success or error, is
returned as is without a retry. -/
theorem c1_post_retry (url : String) (data : Option Json) (e : Env) :
    (ACMEClient.post_attempts url data e).length ≤ 2 ∧
    ((ACMEClient.post_attempts url data e).length = 2 ↔
      (ACMEClient.post_once url data e).result = .error .badNonceError) ∧
    ((ACMEClient.post_once url data e).result = .error .badNonceError →
      ACMEClient.post url data e =
        ACMEClient.post_once url data
          (ACMEClient.post_once url data e).env) ∧
    ((ACMEClient.post_once url data e).result ≠ .error .badNonceError →
      ACMEClient.post url data e = ACMEClient.post_once url data e) ∧
    ((ACMEClient.post_once url data
        (ACMEClient.post_once url data e).env).nonceUsed =
      (ACMEClient.get_nonce url
        (ACMEClient.post_once url data e).env).1.toOption) ∧
    numPosts (ACMEClient.post url data e).env.trace ≤
      numPosts e.trace + 2 ∧
    ((ACMEClient.post_once url data e).result ≠ .error .badNonceError →
      numPosts (ACMEClient.post url data e).env.trace ≤
        numPosts e.trace + 1) := by
  have hfresh := post_once_nonce_fresh url data
    (ACMEClient.post_once url data e).env
  have hp1 := numPosts_post_once url data e
  have hp2 := numPosts_post_once url data (ACMEClient.post_once url data e).env
  cases hres : (ACMEClient.post_once url data e).result with
  | ok resp =>
    refine ⟨?_, ?_, ?_, ?_, hfresh, ?_, ?_⟩ <;>
      simp [ACMEClient.post, ACMEClient.post_attempts, hres] <;> omega
  | error ex =>
    cases ex <;>
      refine ⟨?_, ?_, ?_, ?_, hfresh, ?_, ?_⟩ <;>
        simp [ACMEClient.post, ACMEClient.post_attempts, hres] <;> omega

/-- C1 witness: a concrete signed POST whose first attempt is rejected
with the bad-nonce problem document and whose retry succeeds — two
attempts, two POSTs on the wire, and the retry consumes the next nonce
freshly acquired from the pool — via `c1_post_retry`. -/
theorem c1_witness :
    (ACMEClient.post_attempts "https://no" none
      ⟨⟨"https://d", some ⟨"https://na", some "https://nn", "https://no"⟩,
        some "https://acc", [[1], [2]]⟩,
       [⟨400, some (.jobj [("type",
          .jstr "urn:ietf:params:acme:error:badNonce")]), none, none⟩,
        ⟨200, none, none, none⟩], []⟩).length = 2 ∧
    (ACMEClient.post "https://no" none
      ⟨⟨"https://d", some ⟨"https://na", some "https://nn", "https://no"⟩,
        some "https://acc", [[1], [2]]⟩,
       [⟨400, some (.jobj [("type",
          .jstr "urn:ietf:params:acme:error:badNonce")]), none, none⟩,
        ⟨200, none, none, none⟩], []⟩).result =
      .ok ⟨200, none, none, none⟩ ∧
    (ACMEClient.post_once "https://no" none
      (ACMEClient.post_once "https://no" none
        ⟨⟨"https://d", some ⟨"https://na", some "https://nn", "https://no"⟩,
          some "https://acc", [[1], [2]]⟩,
         [⟨400, some (.jobj [("type",
            .jstr "urn:ietf:params:acme:error:badNonce")]), none, none⟩,
          ⟨200, none, none, none⟩], []⟩).env).nonceUsed = some [2] ∧
    numPosts (ACMEClient.post "https://no" none
      ⟨⟨"https://d", some ⟨"https://na", some "https://nn", "https://no"⟩,
        some "https://acc", [[1], [2]]⟩,
       [⟨400, some (.jobj [("type",
          .jstr "urn:ietf:params:acme:error:badNonce")]), none, none⟩,
        ⟨200, none, none, none⟩], []⟩).env.trace ≤ 2 := by
  have h := c1_post_retry "https://no" none
    ⟨⟨"https://d", some ⟨"https://na", some "https://nn", "https://no"⟩,
      some "https://acc", [[1], [2]]⟩,
     [⟨400, some (.jobj [("type",
        .jstr "urn:ietf:params:acme:error:badNonce")]), none, none⟩,
      ⟨200, none, none, none⟩], []⟩
  refine ⟨h.2.1.mpr rfl, ?_, ?_, ?_⟩
  · rw [h.2.2.1 rfl]
    rfl
  · rw [h.2.2.2.2.1]
    rfl
  · have hb := h.2.2.2.2.2.1
    simpa [numPosts] using hb

/-! ## C4 — bind-state invariant -/

/-- The oracle send leaves the client state untouched. -/
theorem st_netSend (req : NetReq) (e : Env) : (netSend req e).2.st = e.st := by
  rcases e with ⟨st, net, tr⟩
  cases net <;> rfl

/-- Harvesting a nonce never changes the account URL. -/
theorem nonce_from_response_account_url (st : ClientSt) (r : HttpResponse)
    (st2 : ClientSt) (h : nonce_from_response st r = .ok st2) :
    st2.account_url = st.account_url := by
  unfold nonce_from_response at h
  split at h
  · simp only [Except.ok.injEq] at h
    rw [← h]
  · split at h
    · simp at h
    · split at h
      · simp at h
      · simp only [Except.ok.injEq] at h
        rw [← h]

/-- Fetching the directory never changes the account URL. -/
theorem account_url_get_directory (e : Env) :
    (ACMEClient.get_directory e).2.st.account_url = e.st.account_url := by
  unfold ACMEClient.get_directory
  split
  · rfl
  · split
    next ex e1 heq =>
      have h := st_netSend (NetReq.get e.st.directory_url) e
      rw [heq] at h
      show e1.st.account_url = e.st.account_url
      rw [show e1.st = e.st from h]
    next r e1 heq =>
      have h := st_netSend (NetReq.get e.st.directory_url) e
      rw [heq] at h
      have h' : e1.st = e.st := h
      split
      · show e1.st.account_url = e.st.account_url
        rw [h']
      · split
        · show e1.st.account_url = e.st.account_url
          rw [h']
        · show e1.st.account_url = e.st.account_url
          rw [h']

/-- A `_head` call never changes the account URL. -/
theorem account_url_head (u : String) (e : Env) :
    (ACMEClient.head u e).2.st.account_url = e.st.account_url := by
  unfold ACMEClient.head
  split
  next ex e1 heq =>
    have h := st_netSend (NetReq.head u) e
    rw [heq] at h
    show e1.st.account_url = e.st.account_url
    rw [show e1.st = e.st from h]
  next r e1 heq =>
    have h := st_netSend (NetReq.head u) e
    rw [heq] at h
    have h' : e1.st = e.st := h
    split
    · show e1.st.account_url = e.st.account_url
      rw [h']
    · split
      next ex heq2 =>
        show e1.st.account_url = e.st.account_url
        rw [h']
      next st2 heq2 =>
        have h2 := nonce_from_response_account_url e1.st r st2 heq2
        show st2.account_url = e.st.account_url
        rw [h2, h']

/-- Acquiring a nonce never changes the account URL. -/
theorem account_url_get_nonce (url : String) (e : Env) :
    (ACMEClient.get_nonce url e).2.st.account_url = e.st.account_url := by
  unfold ACMEClient.get_nonce
  split
  · rfl
  · split
    next ex e1 heq =>
      have h := account_url_get_directory e
      rw [heq] at h
      exact h
    next d e1 heq =>
      have h1 := account_url_get_directory e
      rw [heq] at h1
      have h1' : e1.st.account_url = e.st.account_url := h1
      split
      next ex e2 heq2 =>
        have h2 := account_url_head
          (match d.new_nonce with | none => url | some u => u) e1
        rw [heq2] at h2
        exact h2.trans h1'
      next resp e2 heq2 =>
        have h2 := account_url_head
          (match d.new_nonce with | none => url | some u => u) e1
        rw [heq2] at h2
        have h2' : e2.st.account_url = e.st.account_url := h2.trans h1'
        split
        · exact h2'
        · split
          · exact h2'
          · exact h2'

/-- One POST attempt never changes the account URL. -/
theorem account_url_post_once (url : String) (data : Option Json) (e : Env) :
    (ACMEClient.post_once url data e).env.st.account_url =
      e.st.account_url := by
  unfold ACMEClient.post_once
  split
  next ex e1 heq =>
    have h := account_url_get_nonce url e
    rw [heq] at h
    exact h
  next nonce e1 heq =>
    have h1 := account_url_get_nonce url e
    rw [heq] at h1
    have h1' : e1.st.account_url = e.st.account_url := h1
    split
    next ex e2 heq2 =>
      have h := st_netSend (NetReq.post url) e1
      rw [heq2] at h
      have h' : e2.st = e1.st := h
      show e2.st.account_url = e.st.account_url
      rw [h', h1']
    next resp e2 heq2 =>
      have h := st_netSend (NetReq.post url) e1
      rw [heq2] at h
      have h' : e2.st = e1.st := h
      have h2' : e2.st.account_url = e.st.account_url := by rw [h', h1']
      split
      · exact h2'
      · split
        next ex heq3 => exact h2'
        next st2 heq3 =>
          have h3 := nonce_from_response_account_url e2.st resp st2 heq3
          show st2.account_url = e.st.account_url
          rw [h3, h', h1']

/-- A signed POST — retry included — never changes the account URL. -/
theorem account_url_post (url : String) (data : Option Json) (e : Env) :
    (ACMEClient.post url data e).env.st.account_url = e.st.account_url := by
  simp only [ACMEClient.post]
  split
  · exact (account_url_post_once url data
      (ACMEClient.post_once url data e).env).trans
      (account_url_post_once url data e)
  · exact account_url_post_once url data e

/-- `new_order` never changes the account URL. -/
theorem account_url_new_order (domains : List String) (e : Env) :
    (ACMEClient.new_order domains e).2.st.account_url =
      e.st.account_url := by
  simp only [ACMEClient.new_order]
  split
  · rfl
  · split
    next ex e1 heq =>
      have h := account_url_get_directory e
      rw [heq] at h
      exact h
    next d e1 heq =>
      have h1 := account_url_get_directory e
      rw [heq] at h1
      have h1' : e1.st.account_url = e.st.account_url := h1
      split
      next ex heq2 => exact (account_url_post _ _ e1).trans h1'
      next resp heq2 =>
        split
        · exact (account_url_post _ _ e1).trans h1'
        · exact (account_url_post _ _ e1).trans h1'

/-- C4: the bound state (account URL present) is entered exactly by a
successful `new_account` — which stores the response's `Location` header
— or by passing an account URL to the constructor; `deactivate_account`
success is the transition back to unbound; `new_account` on a bound
client raises already-registered, and `new_order` or
`deactivate_account` on an unbound client raise not-registered, in all
three cases with the environment unchanged — before any network request
is sent; and `new_order` never changes the bind state. -/
theorem c4_bind_invariant (du : String) (au : Option String)
    (emails domains : List String) (e : Env) :
    (clientInit du au).account_url = au ∧
    is_bound (clientInit du au) = au.isSome ∧
    (e.st.account_url.isSome →
      ACMEClient.new_account emails e = (.error .alreadyRegistered, e)) ∧
    (∀ loc e', ACMEClient.new_account emails e = (.ok loc, e') →
      e'.st.account_url = some loc) ∧
    (e.st.account_url = none →
      ACMEClient.deactivate_account e = (.error .notRegistredError, e)) ∧
    (∀ e', ACMEClient.deactivate_account e = (.ok (), e') →
      e'.st.account_url = none) ∧
    (e.st.account_url = none →
      ACMEClient.new_order domains e = (.error .notRegistredError, e)) ∧
    (ACMEClient.new_order domains e).2.st.account_url =
      e.st.account_url := by
  refine ⟨rfl, rfl, ?_, ?_, ?_, ?_, ?_, account_url_new_order domains e⟩
  · intro hb
    rw [Option.isSome_iff_exists] at hb
    obtain ⟨a, ha⟩ := hb
    simp [ACMEClient.new_account, check_unbound, is_bound, ha]
  · intro loc e' h
    simp only [ACMEClient.new_account] at h
    split at h
    · simp at h
    · split at h
      next ex e1 heq => simp at h
      next d e1 heq =>
        split at h
        next ex heq2 => simp at h
        next resp heq2 =>
          split at h
          next heq3 => simp at h
          next loc' heq3 =>
            simp only [Prod.mk.injEq, Except.ok.injEq] at h
            obtain ⟨h1, h2⟩ := h
            rw [← h2, ← h1]
  · intro hu
    simp [ACMEClient.deactivate_account, check_bound, is_bound, hu]
  · intro e' h
    simp only [ACMEClient.deactivate_account] at h
    split at h
    · simp at h
    · split at h
      next ex heq2 => simp at h
      next resp heq2 =>
        simp only [Prod.mk.injEq] at h
        rw [← h.2]
  · intro hu
    simp [ACMEClient.new_order, check_bound, is_bound, hu]

/-- C4 witness: the bind transitions on concrete environments — a bound
client refusing `new_account` untouched, a successful registration
storing the `Location` header, an unbound client refusing
`deactivate_account` and `new_order` untouched, a successful
deactivation unbinding, and a constructor pre-binding — via
`c4_bind_invariant`. -/
theorem c4_witness :
    (clientInit "https://d" (some "https://acc")).account_url =
      some "https://acc" ∧
    is_bound (clientInit "https://d" none) = false ∧
    ACMEClient.new_account ["admin@example.com"]
      ⟨⟨"https://d", none, some "https://acc", []⟩, [], []⟩ =
      (.error .alreadyRegistered,
       ⟨⟨"https://d", none, some "https://acc", []⟩, [], []⟩) ∧
    (ACMEClient.new_account ["admin@example.com"]
      ⟨⟨"https://d", some ⟨"https://na", some "https://nn", "https://no"⟩,
        none, [[1]]⟩, [⟨201, none, none, some "https://acc-new"⟩],
       []⟩).2.st.account_url = some "https://acc-new" ∧
    ACMEClient.deactivate_account
      ⟨⟨"https://d", none, none, []⟩, [], []⟩ =
      (.error .notRegistredError,
       ⟨⟨"https://d", none, none, []⟩, [], []⟩) ∧
    (ACMEClient.deactivate_account
      ⟨⟨"https://d", some ⟨"https://na", some "https://nn", "https://no"⟩,
        some "https://acc", [[1]]⟩, [⟨200, none, none, none⟩],
       []⟩).2.st.account_url = none ∧
    ACMEClient.new_order ["example.com"]
      ⟨⟨"https://d", none, none, []⟩, [], []⟩ =
      (.error .notRegistredError,
       ⟨⟨"https://d", none, none, []⟩, [], []⟩) := by
  refine ⟨?_, ?_, ?_, ?_, ?_, ?_, ?_⟩
  · exact (c4_bind_invariant "https://d" (some "https://acc") [] []
      ⟨⟨"", none, none, []⟩, [], []⟩).1
  · exact (c4_bind_invariant "https://d" none [] []
      ⟨⟨"", none, none, []⟩, [], []⟩).2.1
  · exact (c4_bind_invariant "https://d" none ["admin@example.com"] []
      ⟨⟨"https://d", none, some "https://acc", []⟩, [], []⟩).2.2.1 rfl
  · exact (c4_bind_invariant "https://d" none ["admin@example.com"] []
      ⟨⟨"https://d", some ⟨"https://na", some "https://nn", "https://no"⟩,
        none, [[1]]⟩, [⟨201, none, none, some "https://acc-new"⟩],
       []⟩).2.2.2.1 "https://acc-new"
      (ACMEClient.new_account ["admin@example.com"]
        ⟨⟨"https://d", some ⟨"https://na", some "https://nn", "https://no"⟩,
          none, [[1]]⟩, [⟨201, none, none, some "https://acc-new"⟩],
         []⟩).2 rfl
  · exact (c4_bind_invariant "https://d" none [] []
      ⟨⟨"https://d", none, none, []⟩, [], []⟩).2.2.2.2.1 rfl
  · exact (c4_bind_invariant "https://d" none [] []
      ⟨⟨"https://d", some ⟨"https://na", some "https://nn", "https://no"⟩,
        some "https://acc", [[1]]⟩, [⟨200, none, none, none⟩],
       []⟩).2.2.2.2.2.1
      (ACMEClient.deactivate_account
        ⟨⟨"https://d", some ⟨"https://na", some "https://nn", "https://no"⟩,
          some "https://acc", [[1]]⟩, [⟨200, none, none, none⟩],
         []⟩).2 rfl
  · exact (c4_bind_invariant "https://d" none [] ["example.com"]
      ⟨⟨"https://d", none, none, []⟩, [], []⟩).2.2.2.2.2.2.1 rfl
